import Mathlib

/-!
Verification of the `Point` template class from `src/Point.hpp` (ICS 46
code example).  The C++ class `Point<CoordinateType>` holds three member
variables `x_`, `y_`, `z_` of the coordinate type, exposes accessors
`x()`, `y()`, `z()` (a const read-only form and a mutable reference form),
and a method `distanceFrom` that returns the Euclidean distance to another
point of the same instantiation as a `double`.

The embedding is a shallow one: `Point` becomes a Lean structure
parameterised over the coordinate type; the const accessors become pure
projections; writing through a mutable accessor becomes an explicit
field-update function; and `distanceFrom` becomes a pure function whose
`double` result is idealised as a real number, with `std::sqrt` modelled
by `Real.sqrt`.  The implicit conversion of the summed value to `double`
(the argument of `std::sqrt`) is made explicit by a `toReal` parameter;
for `CoordinateType = double` that conversion is the identity, and for
integer coordinates it is the cast `Int.cast`.
-/

/-- Embedding of the template class `Point<CoordinateType>` from
`src/Point.hpp` lines 85-136: three member variables `x_`, `y_`, `z_`
of the coordinate type.  The structure constructor `Point.mk` embeds the
C++ constructor (lines 192-198), which stores the three arguments into
the three members with no validation. -/
structure Point (CoordinateType : Type) where
  x_ : CoordinateType
  y_ : CoordinateType
  z_ : CoordinateType

namespace Point

variable {CoordinateType : Type}

/-- Embedding of the const accessor `x()` (lines 201-205): returns the
stored `x_` member. -/
def x (p : Point CoordinateType) : CoordinateType :=
  p.x_

/-- Embedding of the const accessor `y()` (lines 215-219): returns the
stored `y_` member. -/
def y (p : Point CoordinateType) : CoordinateType :=
  p.y_

/-- Embedding of the const accessor `z()` (lines 229-233): returns the
stored `z_` member. -/
def z (p : Point CoordinateType) : CoordinateType :=
  p.z_

/-- Embedding of an assignment through the mutable accessor `x()`
(lines 208-212): the accessor returns a reference to the member `x_`,
so writing `v` through it replaces `x_` by `v` and nothing else. -/
def setX (p : Point CoordinateType) (v : CoordinateType) : Point CoordinateType :=
  { p with x_ := v }

/-- Embedding of an assignment through the mutable accessor `y()`
(lines 222-226). -/
def setY (p : Point CoordinateType) (v : CoordinateType) : Point CoordinateType :=
  { p with y_ := v }

/-- Embedding of an assignment through the mutable accessor `z()`
(lines 236-240). -/
def setZ (p : Point CoordinateType) (v : CoordinateType) : Point CoordinateType :=
  { p with z_ := v }

/-- Embedding of `distanceFrom` (lines 252-259):

    return std::sqrt(
        (x_ - other.x_) * (x_ - other.x_)
        + (y_ - other.y_) * (y_ - other.y_)
        + (z_ - other.z_) * (z_ - other.z_));

Per axis the corresponding coordinates are subtracted and the difference
is multiplied by itself (no power operator); the three products are
summed in the coordinate type; the sum is converted to `double`
(modelled by the explicit `toReal` argument) and its square root taken.
The coordinate type must support subtraction, multiplication and
addition, which the instance arguments record; a coordinate type without
them cannot instantiate this definition. -/
noncomputable def distanceFrom [Sub CoordinateType] [Mul CoordinateType]
    [Add CoordinateType] (toReal : CoordinateType → ℝ)
    (p other : Point CoordinateType) : ℝ :=
  Real.sqrt (toReal
    ((p.x_ - other.x_) * (p.x_ - other.x_)
      + (p.y_ - other.y_) * (p.y_ - other.y_)
      + (p.z_ - other.z_) * (p.z_ - other.z_)))

/-- State-passing form of the call `p.distanceFrom(other)`.  The method
is declared `const` (line 121) and its body (lines 252-259) contains
only reads of the members of `p` and `other` and arithmetic on the read
values, no assignment, so the translation of the call returns the
computed distance together with the two points, whose states the body
never writes. -/
noncomputable def distanceFromCall [Sub CoordinateType] [Mul CoordinateType]
    [Add CoordinateType] (toReal : CoordinateType → ℝ)
    (p other : Point CoordinateType) :
    ℝ × Point CoordinateType × Point CoordinateType :=
  (distanceFrom toReal p other, p, other)

end Point

/-- C1: for every two points `p` and `q` of the same instantiation,
`p.distanceFrom(q)` equals the Euclidean distance
`sqrt((p.x-q.x)^2 + (p.y-q.y)^2 + (p.z-q.z)^2)`, computed per axis by
subtracting the corresponding coordinates, squaring each difference as
the product of that difference with itself, summing the three squared
products, and taking the square root of the sum, with the result a real
(`double`) value regardless of the coordinate type; the conversion of
the summed value to `double` is a ring homomorphism `f`. -/
theorem distanceFrom_eq_euclidean {T : Type} [Ring T] (f : T →+* ℝ)
    (p q : Point T) :
    Point.distanceFrom (⇑f) p q =
      Real.sqrt ((f p.x - f q.x) ^ 2 + (f p.y - f q.y) ^ 2
        + (f p.z - f q.z) ^ 2) := by
  unfold Point.distanceFrom Point.x Point.y Point.z
  congr 1
  push_cast [map_add, map_mul, map_sub]
  ring

/-- C2: constructing a `Point` from coordinates `(a, b, c)` of any
coordinate type and reading the accessors `x()`, `y()`, `z()` returns
exactly `(a, b, c)`; no arithmetic capability of the coordinate type is
required and no validation is performed. -/
theorem mk_accessor_roundtrip (T : Type) (a b c : T) :
    (Point.mk a b c).x = a ∧ (Point.mk a b c).y = b ∧
      (Point.mk a b c).z = c :=
  ⟨rfl, rfl, rfl⟩

/-- C3: writing a value through exactly one mutable accessor leaves the
other two coordinates unchanged, for every point and every written
value. -/
theorem set_mutation_isolation (T : Type) (p : Point T) (v : T) :
    ((p.setX v).y = p.y ∧ (p.setX v).z = p.z) ∧
      ((p.setY v).x = p.x ∧ (p.setY v).z = p.z) ∧
      ((p.setZ v).x = p.x ∧ (p.setZ v).y = p.y) :=
  ⟨⟨rfl, rfl⟩, ⟨rfl, rfl⟩, ⟨rfl, rfl⟩⟩

/-- C4: the distance from any point to itself is exactly `0`, for any
coordinate values, whenever the conversion to `double` is a ring
homomorphism. -/
theorem distanceFrom_self {T : Type} [Ring T] (f : T →+* ℝ)
    (p : Point T) : Point.distanceFrom (⇑f) p p = 0 := by
  simp [Point.distanceFrom, sub_self]

/-- C5: the distance computation is symmetric:
`p.distanceFrom(q) = q.distanceFrom(p)` for all points of the same
instantiation over any ring of coordinates, and for any conversion of
the summed value to `double` (the summed values coincide exactly, so no
floating-point tolerance is even needed). -/
theorem distanceFrom_symm {T : Type} [Ring T] (toReal : T → ℝ)
    (p q : Point T) :
    Point.distanceFrom toReal p q = Point.distanceFrom toReal q p := by
  have key : ∀ a b : T, (a - b) * (a - b) = (b - a) * (b - a) := by
    intro a b
    rw [← neg_sub b a, neg_mul_neg]
  unfold Point.distanceFrom
  rw [key p.x_ q.x_, key p.y_ q.y_, key p.z_ q.z_]

/-- C6: known values: the distance from `Point(0,0,0)` to `Point(3,4,0)`
over real (`double`) coordinates is `5`, and the distance between the
integer-coordinate points `(0,0,0)` and `(1,1,1)` is `sqrt 3`, a real
number even though the coordinate type is integral. -/
theorem distanceFrom_known_values :
    Point.distanceFrom id (Point.mk (0 : ℝ) 0 0) (Point.mk 3 4 0) = 5 ∧
      Point.distanceFrom (fun n : ℤ => (n : ℝ))
        (Point.mk (0 : ℤ) 0 0) (Point.mk 1 1 1) = Real.sqrt 3 := by
  constructor
  · unfold Point.distanceFrom
    have h : (id (((0 : ℝ) - 3) * ((0 : ℝ) - 3) + ((0 : ℝ) - 4) * ((0 : ℝ) - 4)
        + ((0 : ℝ) - 0) * ((0 : ℝ) - 0)) : ℝ) = 5 ^ 2 := by norm_num
    rw [h, Real.sqrt_sq (by norm_num : (0 : ℝ) ≤ 5)]
  · unfold Point.distanceFrom
    norm_num

/-- C7: `distanceFrom` has no side effects: the call returns the
computed distance and leaves the coordinates of both points exactly as
they were. -/
theorem distanceFromCall_no_side_effects {T : Type} [Sub T] [Mul T]
    [Add T] (toReal : T → ℝ) (p q : Point T) :
    (Point.distanceFromCall toReal p q).2.1 = p ∧
      (Point.distanceFromCall toReal p q).2.2 = q ∧
      (Point.distanceFromCall toReal p q).1 =
        Point.distanceFrom toReal p q :=
  ⟨rfl, rfl, rfl⟩

/-- C9: writing a value `v` through a mutable accessor and then reading
the same accessor returns exactly `v`, and a subsequent `distanceFrom`
computation uses the new value: the updated point computes the same
distance as a point freshly constructed with the new coordinate. -/
theorem set_write_read_roundtrip {T : Type} [Ring T] (toReal : T → ℝ)
    (p q : Point T) (v : T) :
    (p.setX v).x = v ∧ (p.setY v).y = v ∧ (p.setZ v).z = v ∧
      Point.distanceFrom toReal (p.setX v) q =
        Point.distanceFrom toReal (Point.mk v p.y p.z) q :=
  ⟨rfl, rfl, rfl, rfl⟩

/-- C10: the distance between any two points of the same instantiation
is nonnegative, being the square root of a sum of three squares. -/
theorem distanceFrom_nonneg {T : Type} [Sub T] [Mul T] [Add T]
    (toReal : T → ℝ) (p q : Point T) :
    0 ≤ Point.distanceFrom toReal p q :=
  Real.sqrt_nonneg _
